import Mathlib

/-!
Verification of `fakestun.py`, a minimal fake STUN server.

Bytes are modelled as `List Nat` (each entry one octet).  Python code
that can raise an exception is modelled with `Option`: `none` means the
Python code raises.  Python's dynamic `None` values (the defaults passed
for the CHANGED-ADDRESS resolution) are modelled with an inner `Option`
on the relevant fields.
-/

namespace FakeStun

/-- `UInt8ToBytes` from the source: unsigned 8-bit big-endian encoding;
`int.to_bytes` raises when the number does not fit. -/
def UInt8ToBytes (number : Int) : Option (List Nat) :=
  if 0 ≤ number ∧ number < 256 then some [number.toNat] else none

/-- `UInt16ToBytes` from the source: unsigned 16-bit big-endian encoding;
`int.to_bytes` raises when the number does not fit. -/
def UInt16ToBytes (number : Int) : Option (List Nat) :=
  if 0 ≤ number ∧ number < 65536 then
    some [number.toNat / 256, number.toNat % 256]
  else none

/-- `UInt32ToBytes` from the source: unsigned 32-bit big-endian encoding;
`int.to_bytes` raises when the number does not fit. -/
def UInt32ToBytes (number : Int) : Option (List Nat) :=
  if 0 ≤ number ∧ number < 4294967296 then
    some [number.toNat / 16777216 % 256, number.toNat / 65536 % 256,
          number.toNat / 256 % 256, number.toNat % 256]
  else none

/-- Standard UTF-8 encoding of one Unicode scalar value, as performed by
Python's `str.encode("utf-8")` for each character. -/
def utf8EncodeChar (c : Char) : List Nat :=
  let n := c.toNat
  if n < 128 then [n]
  else if n < 2048 then [192 + n / 64, 128 + n % 64]
  else if n < 65536 then [224 + n / 4096, 128 + n / 64 % 64, 128 + n % 64]
  else [240 + n / 262144, 128 + n / 4096 % 64, 128 + n / 64 % 64, 128 + n % 64]

/-- Python's `str.encode("utf-8")`: UTF-8 encoding of the whole string. -/
def utf8Encode (s : String) : List Nat :=
  s.toList.flatMap utf8EncodeChar

/-- Attribute type code `TYPE_MAPPED_ADDRESS` from the source. -/
def TYPE_MAPPED_ADDRESS : Int := 1

/-- Attribute type code `TYPE_SOURCE_ADDRESS` from the source. -/
def TYPE_SOURCE_ADDRESS : Int := 4

/-- Attribute type code `TYPE_CHANGED_ADDRESS` from the source. -/
def TYPE_CHANGED_ADDRESS : Int := 5

/-- Attribute type code `TYPE_SERVER` from the source. -/
def TYPE_SERVER : Int := 32802

/-- STUN response attribute: the class hierarchy `Attribute` /
`IPv4AddressAndPortAttribute` / `TextAttribute` of the source as a closed
sum.  The `ip` and `port` fields of the address variant are `Option`
because at the CHANGED-ADDRESS call site the Python code can store
`None` in them. -/
inductive Attribute where
  | ipv4AddressAndPort (attributeType : Int) (ip : Option (List Nat)) (port : Option Int)
  | text (attributeType : Int) (text : String)
  deriving DecidableEq

/-- The `__attributeType` field stored by `Attribute.__init__`. -/
def Attribute.attributeType : Attribute → Int
  | .ipv4AddressAndPort t _ _ => t
  | .text t _ => t

/-- `getAttributeValue` of the two subclasses: for
`IPv4AddressAndPortAttribute` the 16-bit family marker 1, the 16-bit
port, then the stored ip bytes (raising if the port is `None` / out of
range or the ip is `None`); for `TextAttribute` the UTF-8 text plus one
null byte. -/
def Attribute.getAttributeValue : Attribute → Option (List Nat)
  | .ipv4AddressAndPort _ ip port => do
      let protocolIPv4 ← UInt16ToBytes 1
      let p ← port
      let portBytes ← UInt16ToBytes p
      let i ← ip
      pure (protocolIPv4 ++ portBytes ++ i)
  | .text _ s => some (utf8Encode s ++ [0])

/-- `Attribute.getBinary` from the source: 16-bit type code, 16-bit
payload length, then the payload. -/
def Attribute.getBinary (a : Attribute) : Option (List Nat) := do
  let attributeValue ← a.getAttributeValue
  let t ← UInt16ToBytes a.attributeType
  let l ← UInt16ToBytes (attributeValue.length : Int)
  pure (t ++ l ++ attributeValue)

/-- Message type `BINDING_RESPONSE` from the source. -/
def BINDING_RESPONSE : Int := 257

/-- `ResponseMessage` from the source: message type, transaction id,
ordered attribute list. -/
structure ResponseMessage where
  messageType : Int
  messageTransactionID : List Nat
  attributes : List Attribute
  deriving DecidableEq

/-- `ResponseMessage.addAttribute` from the source: append one attribute. -/
def ResponseMessage.addAttribute (m : ResponseMessage) (a : Attribute) : ResponseMessage :=
  { m with attributes := m.attributes ++ [a] }

/-- `ResponseMessage.getBinary` from the source: 16-bit message type,
16-bit total attribute length, transaction id, concatenated attribute
binaries.  Any exception of an attribute's serialization propagates. -/
def ResponseMessage.getBinary (m : ResponseMessage) : Option (List Nat) := do
  let binaries ← m.attributes.mapM Attribute.getBinary
  let attributesBinary := binaries.flatten
  let t ← UInt16ToBytes m.messageType
  let l ← UInt16ToBytes (attributesBinary.length : Int)
  pure (t ++ l ++ m.messageTransactionID ++ attributesBinary)

/-- Split a character list at every dot, mirroring Python's
`str.split(".")` (an empty string yields one empty part). -/
def splitOnDot : List Char → List (List Char)
  | [] => [[]]
  | c :: cs =>
      let r := splitOnDot cs
      if c = '.' then [] :: r
      else
        match r with
        | [] => [[c]]
        | p :: ps => (c :: p) :: ps

/-- One dotted-decimal octet as accepted by Python's
`ipaddress.IPv4Address`: 1-3 ASCII digits, no leading zero, value at
most 255. -/
def parseOctet (cs : List Char) : Option Nat :=
  if cs = [] then none
  else if 3 < cs.length then none
  else if ¬ (cs.all fun c => c.isDigit) then none
  else if 1 < cs.length ∧ cs.head? = some '0' then none
  else
    let n := cs.foldl (fun acc c => 10 * acc + (c.toNat - 48)) 0
    if n ≤ 255 then some n else none

/-- Python's `ipaddress.IPv4Address(s).packed`: parse a strict
dotted-decimal IPv4 address string into its four big-endian bytes;
`none` models the `AddressValueError` raised on anything else. -/
def ipv4Parse (s : String) : Option (List Nat) :=
  let parts := splitOnDot s.toList
  if parts.length = 4 then parts.mapM parseOctet else none

/-- `getConfigurationIpAndPort` from the source.  The outer `Option` is
the possible `AddressValueError` of parsing a configured, invalid
address string; the inner `Option`s mirror Python values that may be
`None` (when a `None` default is selected). -/
def getConfigurationIpAndPort (ip : String) (port : Int)
    (defaultIP : Option (List Nat)) (defaultPort : Option Int) :
    Option (Option (List Nat) × Option Int × Bool) :=
  if ip ≠ "" then
    match ipv4Parse ip with
    | none => none
    | some packed =>
      if port < 0 then some (some packed, defaultPort, false)
      else some (some packed, some port, true)
  else
    if port < 0 then some (defaultIP, defaultPort, false)
    else some (defaultIP, some port, false)

/-- The module-level response configuration variables of the source. -/
structure Config where
  responseMappedIP : String
  responseMappedPort : Int
  responseSourceIP : String
  responseSourcePort : Int
  responseChangedIP : String
  responseChangedPort : Int
  deriving DecidableEq

/-- The text of the SERVER attribute added by `startServer`. -/
def serverText : String := "Fake response with static hard-coded IP address"

/-- The body of the receive loop of `startServer`, up to building the
`ResponseMessage`: `none` models an exception escaping the loop,
`some none` models "no response sent", `some (some r)` the response
message built for a recognized Binding Request.  `listenIpPacked` and
`listenPort` are the already-resolved listen address bytes and port;
`senderHost`/`senderPort` are the transport-reported sender. -/
def buildResponse (cfg : Config) (listenIpPacked : List Nat) (listenPort : Int)
    (data : List Nat) (senderHost : String) (senderPort : Int) :
    Option (Option ResponseMessage) :=
  if data.take 2 = [0, 1] then
    match ipv4Parse senderHost with
    | none => none
    | some senderPacked =>
      match getConfigurationIpAndPort cfg.responseMappedIP cfg.responseMappedPort
          (some senderPacked) (some senderPort) with
      | none => none
      | some (mappedIp, mappedPort, _) =>
        match getConfigurationIpAndPort cfg.responseSourceIP cfg.responseSourcePort
            (some listenIpPacked) (some listenPort) with
        | none => none
        | some (sourceIp, sourcePort, _) =>
          match getConfigurationIpAndPort cfg.responseChangedIP cfg.responseChangedPort
              none none with
          | none => none
          | some (changedIp, changedPort, changedConfigured) =>
            let response := ResponseMessage.mk BINDING_RESPONSE ((data.drop 4).take 16) []
            let response := response.addAttribute
              (Attribute.ipv4AddressAndPort TYPE_MAPPED_ADDRESS mappedIp mappedPort)
            let response := response.addAttribute
              (Attribute.ipv4AddressAndPort TYPE_SOURCE_ADDRESS sourceIp sourcePort)
            let response := if changedConfigured then
                response.addAttribute
                  (Attribute.ipv4AddressAndPort TYPE_CHANGED_ADDRESS changedIp changedPort)
              else response
            let response := response.addAttribute (Attribute.text TYPE_SERVER serverText)
            some (some response)
  else
    some none

/-- One full iteration of the receive loop: build the response and, when
one was built, serialize it for `sock.sendto`.  `some (some bytes)`
means a datagram with those bytes is sent back; `some none` means no
datagram is sent; `none` means an exception terminates the loop. -/
def handleDatagram (cfg : Config) (listenIpPacked : List Nat) (listenPort : Int)
    (data : List Nat) (senderHost : String) (senderPort : Int) :
    Option (Option (List Nat)) :=
  match buildResponse cfg listenIpPacked listenPort data senderHost senderPort with
  | none => none
  | some none => some none
  | some (some response) =>
    match response.getBinary with
    | none => none
    | some out => some (some out)

/-! ### Concrete example inputs (used to witness the theorems) -/

/-- The default configuration of the source: no overrides. -/
def cfg0 : Config := ⟨"", -1, "", -1, "", -1⟩

/-- Configuration with a fully configured CHANGED-ADDRESS override. -/
def cfg2 : Config := ⟨"", -1, "", -1, "10.0.0.5", 5000⟩

/-- Configuration with a fully configured MAPPED-ADDRESS override
(the spec's Example 2). -/
def cfg9 : Config := ⟨"198.51.100.7", 40000, "", -1, "", -1⟩

/-- A 20-byte Binding Request with an all-zero transaction id
(the spec's Example 1). -/
def data0 : List Nat := [0, 1, 0, 0] ++ List.replicate 16 0

/-- A 20-byte Binding Request with transaction id of sixteen 7 bytes. -/
def data9 : List Nat := [0, 1, 0, 0] ++ List.replicate 16 7

/-- A 3-byte datagram that starts like a Binding Request. -/
def data10 : List Nat := [0, 1, 9]

/-- The response built for `cfg0`, `data0` and sender (203.0.113.9, 54321)
with listen address 0.0.0.0:3478. -/
def resp0 : ResponseMessage := ⟨257, List.replicate 16 0,
  [Attribute.ipv4AddressAndPort 1 (some [203, 0, 113, 9]) (some 54321),
   Attribute.ipv4AddressAndPort 4 (some [0, 0, 0, 0]) (some 3478),
   Attribute.text 32802 serverText]⟩

/-- The response built for `cfg2`, `data0` and sender (203.0.113.9, 54321):
it carries a CHANGED-ADDRESS attribute. -/
def resp2 : ResponseMessage := ⟨257, List.replicate 16 0,
  [Attribute.ipv4AddressAndPort 1 (some [203, 0, 113, 9]) (some 54321),
   Attribute.ipv4AddressAndPort 4 (some [0, 0, 0, 0]) (some 3478),
   Attribute.ipv4AddressAndPort 5 (some [10, 0, 0, 5]) (some 5000),
   Attribute.text 32802 serverText]⟩

/-- The responses built for `cfg9` and two different requests. -/
def resp9a : ResponseMessage := ⟨257, List.replicate 16 0,
  [Attribute.ipv4AddressAndPort 1 (some [198, 51, 100, 7]) (some 40000),
   Attribute.ipv4AddressAndPort 4 (some [0, 0, 0, 0]) (some 3478),
   Attribute.text 32802 serverText]⟩

/-- Response for `cfg9` and the second request `data9`. -/
def resp9b : ResponseMessage := ⟨257, List.replicate 16 7,
  [Attribute.ipv4AddressAndPort 1 (some [198, 51, 100, 7]) (some 40000),
   Attribute.ipv4AddressAndPort 4 (some [0, 0, 0, 0]) (some 3478),
   Attribute.text 32802 serverText]⟩

/-- The response built for the under-length request `data10`: its
transaction-identifier field is empty. -/
def resp10 : ResponseMessage := ⟨257, [],
  [Attribute.ipv4AddressAndPort 1 (some [203, 0, 113, 9]) (some 54321),
   Attribute.ipv4AddressAndPort 4 (some [0, 0, 0, 0]) (some 3478),
   Attribute.text 32802 serverText]⟩

/-- The bytes `resp10` serializes to. -/
def out10 : List Nat := (resp10.getBinary).getD []

/-- A small message with two attributes, for exercising serialization. -/
def msg3 : ResponseMessage := ⟨257, [9, 9],
  [Attribute.ipv4AddressAndPort 1 (some [1, 2, 3, 4]) (some 258),
   Attribute.text 5 "A"]⟩

/-! ### Helper lemmas -/

/-- Resolution with an unset address and a negative port returns both defaults. -/
lemma getConfigurationIpAndPort_unset (port : Int) (dIp : Option (List Nat))
    (dPort : Option Int) (hport : port < 0) :
    getConfigurationIpAndPort "" port dIp dPort = some (dIp, dPort, false) := by
  simp [getConfigurationIpAndPort, hport]

/-- Resolution with a parseable address and a non-negative port returns the
configured pair and the both-configured flag. -/
lemma getConfigurationIpAndPort_override (ip : String) (port : Int)
    (dIp : Option (List Nat)) (dPort : Option Int) (packed : List Nat)
    (hne : ip ≠ "") (hparse : ipv4Parse ip = some packed) (hport : ¬ port < 0) :
    getConfigurationIpAndPort ip port dIp dPort = some (some packed, some port, true) := by
  simp [getConfigurationIpAndPort, hne, hparse, hport]

/-- The both-configured flag is true exactly when the address string is
non-empty and the port is non-negative. -/
lemma getConfigurationIpAndPort_flag {ip : String} {port : Int}
    {d1 : Option (List Nat)} {d2 : Option Int}
    {a : Option (List Nat)} {p : Option Int} {b : Bool}
    (h : getConfigurationIpAndPort ip port d1 d2 = some (a, p, b)) :
    b = true ↔ (ip ≠ "" ∧ 0 ≤ port) := by
  by_cases hip : ip = ""
  · subst hip
    by_cases hp : port < 0
    · simp [getConfigurationIpAndPort, hp] at h
      obtain ⟨-, -, hb⟩ := h
      subst hb
      simp
    · simp [getConfigurationIpAndPort, hp] at h
      obtain ⟨-, -, hb⟩ := h
      subst hb
      simp
  · cases hparse : ipv4Parse ip with
    | none => simp [getConfigurationIpAndPort, hip, hparse] at h
    | some packed =>
      by_cases hp : port < 0
      · simp [getConfigurationIpAndPort, hip, hparse, hp] at h
        obtain ⟨-, -, hb⟩ := h
        subst hb
        simp [hip]
        omega
      · simp [getConfigurationIpAndPort, hip, hparse, hp] at h
        obtain ⟨-, -, hb⟩ := h
        subst hb
        simp [hip]
        omega

/-- Inversion of `buildResponse`: a successfully built response comes from a
recognized request, a parsed sender address and three successful
configuration resolutions, and has the exact attribute list the loop body
assembles. -/
lemma buildResponse_inv {cfg : Config} {lp : List Nat} {lport : Int}
    {data : List Nat} {sh : String} {spt : Int} {resp : ResponseMessage}
    (h : buildResponse cfg lp lport data sh spt = some (some resp)) :
    data.take 2 = [0, 1] ∧
    ∃ spk mIp mPort mB sIp sPort sB cIp cPort cB,
      ipv4Parse sh = some spk ∧
      getConfigurationIpAndPort cfg.responseMappedIP cfg.responseMappedPort
        (some spk) (some spt) = some (mIp, mPort, mB) ∧
      getConfigurationIpAndPort cfg.responseSourceIP cfg.responseSourcePort
        (some lp) (some lport) = some (sIp, sPort, sB) ∧
      getConfigurationIpAndPort cfg.responseChangedIP cfg.responseChangedPort
        none none = some (cIp, cPort, cB) ∧
      resp.messageType = BINDING_RESPONSE ∧
      resp.messageTransactionID = (data.drop 4).take 16 ∧
      resp.attributes =
        [Attribute.ipv4AddressAndPort TYPE_MAPPED_ADDRESS mIp mPort,
         Attribute.ipv4AddressAndPort TYPE_SOURCE_ADDRESS sIp sPort]
        ++ (if cB then [Attribute.ipv4AddressAndPort TYPE_CHANGED_ADDRESS cIp cPort] else [])
        ++ [Attribute.text TYPE_SERVER serverText] := by
  unfold buildResponse at h
  by_cases hd : data.take 2 = [0, 1]
  · rw [if_pos hd] at h
    refine ⟨hd, ?_⟩
    cases hsp : ipv4Parse sh with
    | none => simp only [hsp] at h; exact absurd h (by simp)
    | some spk =>
      simp only [hsp] at h
      rcases hm : getConfigurationIpAndPort cfg.responseMappedIP cfg.responseMappedPort
          (some spk) (some spt) with _ | ⟨mIp, mPort, mB⟩
      · simp only [hm] at h; exact absurd h (by simp)
      simp only [hm] at h
      rcases hs : getConfigurationIpAndPort cfg.responseSourceIP cfg.responseSourcePort
          (some lp) (some lport) with _ | ⟨sIp, sPort, sB⟩
      · simp only [hs] at h; exact absurd h (by simp)
      simp only [hs] at h
      rcases hc : getConfigurationIpAndPort cfg.responseChangedIP cfg.responseChangedPort
          none none with _ | ⟨cIp, cPort, cB⟩
      · simp only [hc] at h; exact absurd h (by simp)
      simp only [hc] at h
      refine ⟨spk, mIp, mPort, mB, sIp, sPort, sB, cIp, cPort, cB,
        rfl, hm, rfl, rfl, ?_, ?_, ?_⟩ <;>
        · simp only [Option.some.injEq] at h
          cases cB <;> simp [← h, ResponseMessage.addAttribute]
  · rw [if_neg hd] at h
    simp only [reduceCtorEq, Option.some.injEq] at h

/-- The mapped attribute produced for a full override is the head of the
attribute list of every successfully built response. -/
lemma buildResponse_head_of_override {cfg : Config} {lp : List Nat} {lport : Int}
    {data : List Nat} {sh : String} {spt : Int} {resp : ResponseMessage} {mip : List Nat}
    (hne : cfg.responseMappedIP ≠ "")
    (hparse : ipv4Parse cfg.responseMappedIP = some mip)
    (hport : ¬ cfg.responseMappedPort < 0)
    (h : buildResponse cfg lp lport data sh spt = some (some resp)) :
    resp.attributes.head? = some (Attribute.ipv4AddressAndPort TYPE_MAPPED_ADDRESS
      (some mip) (some cfg.responseMappedPort)) := by
  obtain ⟨-, spk, mIp, mPort, mB, sIp, sPort, sB, cIp, cPort, cB,
    hsp, hm, hs, hc, -, -, hAttrs⟩ := buildResponse_inv h
  rw [getConfigurationIpAndPort_override _ _ _ _ mip hne hparse hport] at hm
  simp only [Option.some.injEq, Prod.mk.injEq] at hm
  obtain ⟨hm1, hm2, -⟩ := hm
  rw [hAttrs, ← hm1, ← hm2]
  cases cB <;> simp

/-! ### Claims -/

/-- C1: when no MAPPED-ADDRESS override is configured (empty override IP,
negative override port), the MAPPED-ADDRESS attribute of every response
built for an inbound Binding Request carries exactly the observed sender
address and port, and its payload is the family marker `00 01`, the two
big-endian port bytes, then the four sender address bytes. -/
theorem mappedAddress_echoes_sender (cfg : Config) (lp : List Nat) (lport : Int)
    (data : List Nat) (sh : String) (spt : Int) (resp : ResponseMessage) (spk : List Nat)
    (hip : cfg.responseMappedIP = "") (hport : cfg.responseMappedPort < 0)
    (hsh : ipv4Parse sh = some spk) (hs0 : 0 ≤ spt) (hs1 : spt < 65536)
    (h : buildResponse cfg lp lport data sh spt = some (some resp)) :
    (Attribute.ipv4AddressAndPort TYPE_MAPPED_ADDRESS (some spk) (some spt))
        ∈ resp.attributes ∧
    (∀ a ∈ resp.attributes, a.attributeType = TYPE_MAPPED_ADDRESS →
      a = Attribute.ipv4AddressAndPort TYPE_MAPPED_ADDRESS (some spk) (some spt)) ∧
    (Attribute.ipv4AddressAndPort TYPE_MAPPED_ADDRESS (some spk) (some spt)).getAttributeValue
      = some ([0, 1] ++ [spt.toNat / 256, spt.toNat % 256] ++ spk) := by
  obtain ⟨-, spk', mIp, mPort, mB, sIp, sPort, sB, cIp, cPort, cB,
    hsp, hm, hs, hc, -, -, hAttrs⟩ := buildResponse_inv h
  have hss : spk = spk' := by
    injection hsh.symm.trans hsp
  subst hss
  rw [hip] at hm
  rw [getConfigurationIpAndPort_unset _ _ _ hport] at hm
  simp only [Option.some.injEq, Prod.mk.injEq] at hm
  obtain ⟨hm1, hm2, -⟩ := hm
  refine ⟨?_, ?_, ?_⟩
  · rw [hAttrs, ← hm1, ← hm2]
    cases cB <;> simp
  · intro a ha hat
    rw [hAttrs] at ha
    cases cB with
    | false =>
      simp at ha
      rcases ha with ha | ha | ha <;> subst ha
      · rw [hm1, hm2]
      · simp [Attribute.attributeType, TYPE_SOURCE_ADDRESS, TYPE_MAPPED_ADDRESS] at hat
      · simp [Attribute.attributeType, TYPE_SERVER, TYPE_MAPPED_ADDRESS] at hat
    | true =>
      simp at ha
      rcases ha with ha | ha | ha | ha <;> subst ha
      · rw [hm1, hm2]
      · simp [Attribute.attributeType, TYPE_SOURCE_ADDRESS, TYPE_MAPPED_ADDRESS] at hat
      · simp [Attribute.attributeType, TYPE_CHANGED_ADDRESS, TYPE_MAPPED_ADDRESS] at hat
      · simp [Attribute.attributeType, TYPE_SERVER, TYPE_MAPPED_ADDRESS] at hat
  · simp [Attribute.getAttributeValue, UInt16ToBytes, hs0, hs1]

/-- C2: a successfully built response contains a CHANGED-ADDRESS attribute
exactly when both the changed-address override IP is a non-empty string and
the changed-address override port is non-negative. -/
theorem changedAddress_iff_bothConfigured (cfg : Config) (lp : List Nat) (lport : Int)
    (data : List Nat) (sh : String) (spt : Int) (resp : ResponseMessage)
    (h : buildResponse cfg lp lport data sh spt = some (some resp)) :
    (∃ a ∈ resp.attributes, a.attributeType = TYPE_CHANGED_ADDRESS) ↔
      (cfg.responseChangedIP ≠ "" ∧ 0 ≤ cfg.responseChangedPort) := by
  obtain ⟨-, spk, mIp, mPort, mB, sIp, sPort, sB, cIp, cPort, cB,
    hsp, hm, hs, hc, -, -, hAttrs⟩ := buildResponse_inv h
  rw [← getConfigurationIpAndPort_flag hc, hAttrs]
  cases cB <;>
    simp [Attribute.attributeType, TYPE_MAPPED_ADDRESS, TYPE_SOURCE_ADDRESS,
      TYPE_CHANGED_ADDRESS, TYPE_SERVER]

/-- C3: serializing a message yields the 16-bit big-endian type code, a
16-bit big-endian length equal to the total byte length of the concatenated
attribute serializations, the transaction identifier, then the attribute
serializations in order. -/
theorem message_serialization_format (m : ResponseMessage) (binaries : List (List Nat))
    (hbins : m.attributes.mapM Attribute.getBinary = some binaries)
    (ht0 : 0 ≤ m.messageType) (ht1 : m.messageType < 65536)
    (hlen : binaries.flatten.length < 65536) :
    m.getBinary = some
      ([m.messageType.toNat / 256, m.messageType.toNat % 256]
        ++ [binaries.flatten.length / 256, binaries.flatten.length % 256]
        ++ m.messageTransactionID ++ binaries.flatten) := by
  have hT : UInt16ToBytes m.messageType
      = some [m.messageType.toNat / 256, m.messageType.toNat % 256] := by
    unfold UInt16ToBytes
    rw [if_pos ⟨ht0, ht1⟩]
  have hL : UInt16ToBytes (binaries.flatten.length : Int)
      = some [binaries.flatten.length / 256, binaries.flatten.length % 256] := by
    unfold UInt16ToBytes
    rw [if_pos ⟨Int.natCast_nonneg _, by exact_mod_cast hlen⟩]
    simp only [Int.toNat_natCast]
  rw [ResponseMessage.getBinary, hbins, Option.bind_eq_bind', Option.some_bind]
  rw [Option.bind_eq_bind', hT, Option.some_bind]
  rw [Option.bind_eq_bind', hL, Option.some_bind]
  rfl

/-- C4: serializing an attribute yields the 16-bit big-endian type code, a
16-bit big-endian length equal to the payload's byte length, then the
payload; an address-and-port attribute's payload is family marker 1, the
16-bit port, then the four address bytes, and a text attribute's payload is
the UTF-8 text followed by one null byte. -/
theorem attribute_serialization_format :
    (∀ (t : Int) (ip : List Nat) (port : Int),
        0 ≤ t → t < 65536 → 0 ≤ port → port < 65536 → ip.length = 4 →
        (Attribute.ipv4AddressAndPort t (some ip) (some port)).getBinary
          = some ([t.toNat / 256, t.toNat % 256] ++ [0, 8]
              ++ ([0, 1] ++ [port.toNat / 256, port.toNat % 256] ++ ip))) ∧
    (∀ (t : Int) (s : String),
        0 ≤ t → t < 65536 → (utf8Encode s).length + 1 < 65536 →
        (Attribute.text t s).getBinary
          = some ([t.toNat / 256, t.toNat % 256]
              ++ [((utf8Encode s).length + 1) / 256, ((utf8Encode s).length + 1) % 256]
              ++ (utf8Encode s ++ [0]))) := by
  constructor
  · intro t ip port ht0 ht1 hp0 hp1 hip
    simp [Attribute.getBinary, Attribute.getAttributeValue, Attribute.attributeType,
      UInt16ToBytes, ht0, ht1, hp0, hp1, hip]
  · intro t s ht0 ht1 hlen
    simp [Attribute.getBinary, Attribute.getAttributeValue, Attribute.attributeType,
      UInt16ToBytes, ht0, ht1, hlen]

/-- C5: a datagram whose first two bytes do not encode the big-endian value
1 produces no response datagram and raises no loop-terminating error: the
dispatch returns "nothing sent". -/
theorem unrecognizedType_noResponse (cfg : Config) (lp : List Nat) (lport : Int)
    (b0 b1 : Nat) (rest : List Nat) (sh : String) (spt : Int)
    (h0 : b0 < 256) (h1 : b1 < 256) (hne : 256 * b0 + b1 ≠ 1) :
    handleDatagram cfg lp lport (b0 :: b1 :: rest) sh spt = some none := by
  have hd : (b0 :: b1 :: rest).take 2 ≠ [0, 1] := by
    intro hcontr
    simp at hcontr
    omega
  unfold handleDatagram buildResponse
  rw [if_neg hd]

/-- C6: for a recognized Binding Request of at least 20 bytes, the
transaction identifier of the built response is exactly bytes 4 through 19
of the request, a verbatim 16-byte copy. -/
theorem transactionID_copied_verbatim (cfg : Config) (lp : List Nat) (lport : Int)
    (data : List Nat) (sh : String) (spt : Int) (resp : ResponseMessage)
    (hlen : 20 ≤ data.length)
    (h : buildResponse cfg lp lport data sh spt = some (some resp)) :
    resp.messageTransactionID = (data.drop 4).take 16 ∧
    resp.messageTransactionID.length = 16 := by
  obtain ⟨-, spk, mIp, mPort, mB, sIp, sPort, sB, cIp, cPort, cB,
    hsp, hm, hs, hc, -, hTid, -⟩ := buildResponse_inv h
  refine ⟨hTid, ?_⟩
  rw [hTid]
  simp
  omega

/-- C7: a non-empty configured address string that is not a valid
dotted-decimal IPv4 address makes configuration resolution fail (modelling
the raised `AddressValueError`) instead of silently using the default. -/
theorem invalidAddress_fails (ip : String) (port : Int)
    (dIp : Option (List Nat)) (dPort : Option Int)
    (hne : ip ≠ "") (hbad : ipv4Parse ip = none) :
    getConfigurationIpAndPort ip port dIp dPort = none := by
  simp [getConfigurationIpAndPort, hne, hbad]

/-- C8 counterexample: for the configured port 70000, which is outside the
valid range 0..65535, resolution does not fall back to the default port
3478 but keeps 70000. -/
theorem portAboveRange_counterexample :
    getConfigurationIpAndPort "" 70000 (some [10, 0, 0, 1]) (some 3478)
      = some (some [10, 0, 0, 1], some 70000, false)
    ∧ ¬ ((70000 : Int) ≤ 65535) ∧ (70000 : Int) ≠ 3478 := by
  decide

/-- C8 (amended): configuration resolution uses the configured port exactly
when it is non-negative - with no upper-bound check - and uses the supplied
default port only when the configured port is negative. -/
theorem configuredPort_used_iff_nonneg (ip : String) (port : Int)
    (dIp : Option (List Nat)) (dPort : Option Int)
    (a : Option (List Nat)) (p : Option Int) (b : Bool)
    (h : getConfigurationIpAndPort ip port dIp dPort = some (a, p, b)) :
    p = if port < 0 then dPort else some port := by
  by_cases hip : ip = ""
  · subst hip
    by_cases hp : port < 0 <;>
      simp [getConfigurationIpAndPort, hp] at h <;>
      obtain ⟨-, hpp, -⟩ := h <;>
      simp [hp, ← hpp]
  · cases hparse : ipv4Parse ip with
    | none => simp [getConfigurationIpAndPort, hip, hparse] at h
    | some packed =>
      by_cases hp : port < 0 <;>
        simp [getConfigurationIpAndPort, hip, hparse, hp] at h <;>
        obtain ⟨-, hpp, -⟩ := h <;>
        simp [hp, ← hpp]

/-- C9: when both the mapped-address override IP and port are configured,
the MAPPED-ADDRESS attribute (the head of the attribute list) of any two
successfully built responses is the same fixed value, independent of the
senders observed for the two requests. -/
theorem mappedAddress_fixed_when_overridden (cfg : Config) (lp : List Nat) (lport : Int)
    (data1 : List Nat) (sh1 : String) (spt1 : Int)
    (data2 : List Nat) (sh2 : String) (spt2 : Int)
    (resp1 resp2 : ResponseMessage) (mip : List Nat)
    (hne : cfg.responseMappedIP ≠ "")
    (hparse : ipv4Parse cfg.responseMappedIP = some mip)
    (hport : ¬ cfg.responseMappedPort < 0)
    (h1 : buildResponse cfg lp lport data1 sh1 spt1 = some (some resp1))
    (h2 : buildResponse cfg lp lport data2 sh2 spt2 = some (some resp2)) :
    resp1.attributes.head? = some (Attribute.ipv4AddressAndPort TYPE_MAPPED_ADDRESS
      (some mip) (some cfg.responseMappedPort)) ∧
    resp2.attributes.head? = resp1.attributes.head? := by
  have k1 := buildResponse_head_of_override hne hparse hport h1
  have k2 := buildResponse_head_of_override hne hparse hport h2
  exact ⟨k1, k2.trans k1.symm⟩

/-- C10: a datagram recognized as a Binding Request but shorter than 20
bytes does not make dispatch fail: the slice `data[4:20]` totally yields
the bytes present (fewer than 16, possibly none), the response is built
with that short transaction-identifier field, and whenever its
serialization succeeds the response datagram is sent. -/
theorem short_request_still_answered (cfg : Config) (lp : List Nat) (lport : Int)
    (data : List Nat) (sh : String) (spt : Int) (spk : List Nat)
    (mIp : Option (List Nat)) (mPort : Option Int) (mB : Bool)
    (sIp : Option (List Nat)) (sPort : Option Int) (sB : Bool)
    (cIp : Option (List Nat)) (cPort : Option Int) (cB : Bool)
    (hd : data.take 2 = [0, 1]) (hlen : data.length < 20)
    (hsh : ipv4Parse sh = some spk)
    (hm : getConfigurationIpAndPort cfg.responseMappedIP cfg.responseMappedPort
        (some spk) (some spt) = some (mIp, mPort, mB))
    (hs : getConfigurationIpAndPort cfg.responseSourceIP cfg.responseSourcePort
        (some lp) (some lport) = some (sIp, sPort, sB))
    (hc : getConfigurationIpAndPort cfg.responseChangedIP cfg.responseChangedPort
        none none = some (cIp, cPort, cB)) :
    buildResponse cfg lp lport data sh spt = some (some
      (ResponseMessage.mk BINDING_RESPONSE ((data.drop 4).take 16)
        ([Attribute.ipv4AddressAndPort TYPE_MAPPED_ADDRESS mIp mPort,
          Attribute.ipv4AddressAndPort TYPE_SOURCE_ADDRESS sIp sPort]
         ++ (if cB then [Attribute.ipv4AddressAndPort TYPE_CHANGED_ADDRESS cIp cPort] else [])
         ++ [Attribute.text TYPE_SERVER serverText]))) ∧
    ((data.drop 4).take 16).length = data.length - 4 ∧
    ((data.drop 4).take 16).length < 16 ∧
    (∀ out, (ResponseMessage.mk BINDING_RESPONSE ((data.drop 4).take 16)
        ([Attribute.ipv4AddressAndPort TYPE_MAPPED_ADDRESS mIp mPort,
          Attribute.ipv4AddressAndPort TYPE_SOURCE_ADDRESS sIp sPort]
         ++ (if cB then [Attribute.ipv4AddressAndPort TYPE_CHANGED_ADDRESS cIp cPort] else [])
         ++ [Attribute.text TYPE_SERVER serverText])).getBinary = some out →
      handleDatagram cfg lp lport data sh spt = some (some out)) := by
  have hb : buildResponse cfg lp lport data sh spt = some (some
      (ResponseMessage.mk BINDING_RESPONSE ((data.drop 4).take 16)
        ([Attribute.ipv4AddressAndPort TYPE_MAPPED_ADDRESS mIp mPort,
          Attribute.ipv4AddressAndPort TYPE_SOURCE_ADDRESS sIp sPort]
         ++ (if cB then [Attribute.ipv4AddressAndPort TYPE_CHANGED_ADDRESS cIp cPort] else [])
         ++ [Attribute.text TYPE_SERVER serverText]))) := by
    rw [buildResponse, if_pos hd]
    simp only [hsh, hm, hs, hc]
    cases cB <;> simp [ResponseMessage.addAttribute]
  refine ⟨hb, ?_, ?_, ?_⟩
  · simp
    omega
  · simp
    omega
  · intro out hout
    rw [handleDatagram, hb]
    simp only [hout]

/-! ### Witnesses: the theorems instantiated at concrete inputs -/

/-- C1 witness: spec Example 1, sender (203.0.113.9, 54321), no overrides;
the MAPPED-ADDRESS payload is `00 01 D4 31 CB 00 71 09`. -/
theorem mappedAddress_echoes_sender_witness :
    (Attribute.ipv4AddressAndPort TYPE_MAPPED_ADDRESS (some [203, 0, 113, 9]) (some 54321))
        ∈ resp0.attributes ∧
    (Attribute.ipv4AddressAndPort TYPE_MAPPED_ADDRESS
        (some [203, 0, 113, 9]) (some 54321)).getAttributeValue
      = some [0, 1, 212, 49, 203, 0, 113, 9] := by
  have h := mappedAddress_echoes_sender cfg0 [0, 0, 0, 0] 3478 data0 "203.0.113.9" 54321
    resp0 [203, 0, 113, 9] rfl (by decide) (by decide) (by decide) (by decide) (by decide)
  exact ⟨h.1, h.2.2.trans (by decide)⟩

/-- C2 witness: a fully configured CHANGED-ADDRESS override makes the
attribute appear. -/
theorem changedAddress_iff_bothConfigured_witness :
    (∃ a ∈ resp2.attributes, a.attributeType = TYPE_CHANGED_ADDRESS) ↔
      (cfg2.responseChangedIP ≠ "" ∧ 0 ≤ cfg2.responseChangedPort) :=
  changedAddress_iff_bothConfigured cfg2 [0, 0, 0, 0] 3478 data0 "203.0.113.9" 54321
    resp2 (by decide)

/-- C3 witness: a concrete two-attribute message serializes to type bytes,
length 18, transaction id, then the two attribute binaries. -/
theorem message_serialization_format_witness :
    msg3.getBinary = some ([1, 1] ++ [0, 18] ++ [9, 9] ++
      ([0, 1, 0, 8, 0, 1, 1, 2, 1, 2, 3, 4] ++ [0, 5, 0, 2, 65, 0])) := by
  have h := message_serialization_format msg3
    [[0, 1, 0, 8, 0, 1, 1, 2, 1, 2, 3, 4], [0, 5, 0, 2, 65, 0]]
    (by decide) (by decide) (by decide) (by decide)
  exact h.trans (by decide)

/-- C4 witness: serialization of a concrete address-and-port attribute and
a concrete text attribute. -/
theorem attribute_serialization_format_witness :
    (Attribute.ipv4AddressAndPort 1 (some [203, 0, 113, 9]) (some 54321)).getBinary
      = some [0, 1, 0, 8, 0, 1, 212, 49, 203, 0, 113, 9] ∧
    (Attribute.text 32802 "A").getBinary = some [128, 34, 0, 2, 65, 0] := by
  refine ⟨?_, ?_⟩
  · have h := attribute_serialization_format.1 1 [203, 0, 113, 9] 54321
      (by decide) (by decide) (by decide) (by decide) (by decide)
    exact h.trans (by decide)
  · have h := attribute_serialization_format.2 32802 "A" (by decide) (by decide) (by decide)
    exact h.trans (by decide)

/-- C5 witness: spec Example 4, type bytes `00 02` produce no response. -/
theorem unrecognizedType_noResponse_witness :
    handleDatagram cfg0 [0, 0, 0, 0] 3478 [0, 2] "203.0.113.9" 54321 = some none :=
  unrecognizedType_noResponse cfg0 [0, 0, 0, 0] 3478 0 2 [] "203.0.113.9" 54321
    (by decide) (by decide) (by decide)

/-- C6 witness: the response for `data0` carries its 16 zero bytes 4..19. -/
theorem transactionID_copied_verbatim_witness :
    resp0.messageTransactionID = (data0.drop 4).take 16 ∧
    resp0.messageTransactionID.length = 16 :=
  transactionID_copied_verbatim cfg0 [0, 0, 0, 0] 3478 data0 "203.0.113.9" 54321
    resp0 (by decide) (by decide)

/-- C7 witness: the out-of-range octet string "999.0.0.1" makes resolution
fail. -/
theorem invalidAddress_fails_witness :
    getConfigurationIpAndPort "999.0.0.1" 0 (some [1, 2, 3, 4]) (some 7) = none :=
  invalidAddress_fails "999.0.0.1" 0 (some [1, 2, 3, 4]) (some 7) (by decide) (by decide)

/-- C8 witness: the non-negative configured port 5 is used, not the
default. -/
theorem configuredPort_used_iff_nonneg_witness :
    (some (5 : Int) : Option Int) = if (5 : Int) < 0 then some (3478 : Int) else some 5 :=
  configuredPort_used_iff_nonneg "" 5 (some [1, 2, 3, 4]) (some 3478)
    (some [1, 2, 3, 4]) (some 5) false (by decide)

/-- C9 witness: spec Example 2, override (198.51.100.7, 40000); two
requests from different senders get the identical MAPPED-ADDRESS
attribute. -/
theorem mappedAddress_fixed_when_overridden_witness :
    resp9a.attributes.head? = some (Attribute.ipv4AddressAndPort TYPE_MAPPED_ADDRESS
      (some [198, 51, 100, 7]) (some 40000)) ∧
    resp9b.attributes.head? = resp9a.attributes.head? :=
  mappedAddress_fixed_when_overridden cfg9 [0, 0, 0, 0] 3478 data0 "203.0.113.9" 54321
    data9 "192.0.2.33" 1234 resp9a resp9b [198, 51, 100, 7]
    (by decide) (by decide) (by decide) (by decide) (by decide)

/-- C10 witness: the 3-byte datagram `00 01 09` is answered with a
response whose transaction-identifier field is empty. -/
theorem short_request_still_answered_witness :
    buildResponse cfg0 [0, 0, 0, 0] 3478 data10 "203.0.113.9" 54321 = some (some resp10) ∧
    resp10.messageTransactionID.length = 0 ∧
    handleDatagram cfg0 [0, 0, 0, 0] 3478 data10 "203.0.113.9" 54321 = some (some out10) := by
  have h := short_request_still_answered cfg0 [0, 0, 0, 0] 3478 data10 "203.0.113.9" 54321
    [203, 0, 113, 9] (some [203, 0, 113, 9]) (some 54321) false (some [0, 0, 0, 0]) (some 3478)
    false none none false (by decide) (by decide) (by decide) (by decide) (by decide) (by decide)
  exact ⟨h.1.trans (by decide), by decide, h.2.2.2 out10 (by decide)⟩

end FakeStun
